import Mathlib

/-!
Shallow embedding of the DEXBot order lifecycle engine
(`src/dexbot/strategies/base.py` and `src/dexbot/strategies/support_price.py`).

Numeric asset quantities and prices are embedded as exact rationals (the Python
source computes with floats; every claim checked here is about the exact
arithmetic relationships the code establishes, so `ℚ` is used as the idealised
number type).  Python exceptions are embedded as the `Except` monad over an
explicit error type; Python division, which raises `ZeroDivisionError` on a
zero denominator, is embedded as the fallible `qdiv`.
-/

namespace DexBot

/-- Does `hay` start with `needle`? (helper for substring containment). -/
def matchesAt : List Char → List Char → Bool
  | [], _ => true
  | _ :: _, [] => false
  | c :: cs, h :: hs => c = h && matchesAt cs hs

/-- Is `needle` a contiguous sublist of `hay`? -/
def containsSub (needle : List Char) : List Char → Bool
  | [] => matchesAt needle []
  | c :: t => matchesAt needle (c :: t) || containsSub needle t

/-- Python `needle in hay` on strings (substring containment). -/
def strContains (hay needle : String) : Bool :=
  containsSub needle.data hay.data

/-- Python `hay.startswith(needle)`. -/
def strStartsWith (hay needle : String) : Bool :=
  matchesAt needle.data hay.data

/-- Python `s.upper()` (over the ASCII direction strings the engine uses). -/
def strUpper (s : String) : String :=
  ⟨s.data.map Char.toUpper⟩

/-- The Python exceptions that the engine inspects:
`bitsharesapi.exceptions.UnhandledRPCError` (carrying its message string),
`bitshares.exceptions.MissingKeyError`, `ZeroDivisionError`, and a catch-all
for any other exception class. -/
inductive PyError where
  | unhandledRPC (msg : String)
  | missingKey
  | zeroDivision
  | other (tag : String)
deriving DecidableEq

/-- Constant `MAX_TRIES` from `base.py` line 24. -/
def MAX_TRIES : Nat := 3

/-- First transient signature tested by `retry_action` (`base.py` line 865). -/
def sigAmountToSell : String := "Assert Exception: amount_to_sell.amount > 0"

/-- Second transient signature tested by `retry_action` (`base.py` line 874). -/
def sigExpiration : String := "now <= trx.expiration"

/-- Whether `retry_action` classifies an exception as transient-retryable:
it must be an `UnhandledRPCError` whose message contains one of the two
signatures; any other exception is re-raised at once (`base.py` 864-883). -/
def retryable (e : PyError) : Bool :=
  match e with
  | .unhandledRPC msg => strContains msg sigAmountToSell || strContains msg sigExpiration
  | _ => false

/-- The `while True` loop of `retry_action` (`base.py` 854-883).  The action is
embedded as a function from the invocation index to that invocation's outcome.
`tries` is the loop counter (starts at 0); `k` is the number of invocations
performed so far.  Returns the final outcome paired with the total number of
invocations of the action. -/
def retryGo (action : Nat → Except PyError α) (tries k : Nat) :
    Except PyError α × Nat :=
  match action k with
  | .ok v => (.ok v, k + 1)
  | .error e =>
    if retryable e then
      if tries > MAX_TRIES then
        (.error e, k + 1)
      else
        retryGo action (tries + 1) (k + 1)
    else
      (.error e, k + 1)
termination_by MAX_TRIES + 1 - tries
decreasing_by simp_wf; omega

/-- Function `retry_action` (`base.py` 854-883): run the loop with `tries = 0`. -/
def retry_action (action : Nat → Except PyError α) : Except PyError α × Nat :=
  retryGo action 0 0

/-- Message tested by `_cancel_orders` via `str(e).startswith` (`base.py` 543). -/
def sigNotFound : String := "Assert Exception: maybe_found != nullptr: Unable to find Object"

/-- Method `_cancel_orders` (`base.py` 536-552).  The remote `bitshares.cancel` call
(wrapped in `retry_action`) is embedded as a function from the invocation
index to that invocation's outcome.  Returns `.ok b` for a normal return of
the Python boolean `b`, and `.error e` when an exception other than the two
handled exception classes propagates out. -/
def _cancel_orders (cancelAttempts : Nat → Except PyError Unit) : Except PyError Bool :=
  match (retry_action cancelAttempts).1 with
  | .ok _ => .ok true
  | .error (.unhandledRPC msg) =>
    if strStartsWith msg sigNotFound then .ok false
    else .ok true
  | .error .missingKey => .ok true
  | .error e => .error e

/-- An element of the list passed to `cancel_orders`: a Python order dict that
may or may not carry an `id` key. -/
structure PyOrderRef where
  oid : Option String
deriving DecidableEq

/-- Method `cancel_orders` (`base.py` 554-566).  `self._cancel` is the batched cancel
helper `_cancel_orders` above (the engine's only cancel helper).
`batchAttempts` gives the outcomes of the batched remote call's invocations;
`singleAttempts oid` those of the per-order fallback call for order `oid`.
Returns the number of individual fallback cancel calls issued (0 when no
fallback happens); an exception propagating out of a helper call propagates
here too. -/
def cancel_orders (orders : List PyOrderRef) (batchAttempts : Nat → Except PyError Unit)
    (singleAttempts : String → Nat → Except PyError Unit) : Except PyError Nat :=
  let ids := orders.filterMap (fun o => o.oid)
  match _cancel_orders batchAttempts with
  | .error e => .error e
  | .ok success =>
    if !success && ids.length > 1 then
      ids.foldlM (fun n oid =>
        match _cancel_orders (singleAttempts oid) with
        | .error e => .error e
        | .ok _ => .ok (n + 1)) 0
    else
      .ok 0

/-- One asset of a market: its symbol, display precision and object id. -/
structure MarketAsset where
  symbol : String
  precision : Nat
  aid : String
deriving DecidableEq

/-- The worker's configured market: a base asset and a quote asset. -/
structure PyMarket where
  base : MarketAsset
  quote : MarketAsset
deriving DecidableEq

/-- Modelled from the spec: `truncate` from `dexbot/helper.py`, which is not
part of the provided source tree; spec §4.1: deterministically truncates
(never rounds up) `value` to `precision` decimal digits. -/
def truncate (value : ℚ) (preci : Nat) : ℚ :=
  (⌊value * 10 ^ preci⌋ : ℚ) / 10 ^ preci

/-- The worker state bits the claims are about: the fault flag
(`self.disabled`, `base.py` 192-194) and the recheck flag
(`self.recheck_orders`, `base.py` 177). -/
structure WorkerState where
  disabled : Bool
  recheck_orders : Bool
deriving DecidableEq

/-- An order record as handled by `buy` / `sell` / `calculate_order_data`:
the base and quote legs (amount and symbol), the price, and the `deleted`
marker reported by the ledger. -/
structure OrderRecord where
  base_amount : ℚ
  base_symbol : String
  quote_amount : ℚ
  quote_symbol : String
  price : ℚ
  deleted : Bool
deriving DecidableEq

/-- The remote collaborators used by `buy` / `sell`: the outcome of the k-th
invocation of the remote order-submission call (`market.buy` / `market.sell`
through `retry_action`, yielding the new order id), and the follow-up
`get_order` lookup.  `getOrder` is modelled from the spec (§4.3
`getUpdatedOrder`, defined outside the provided source tree): it returns the
order record, or none when the order does not exist. -/
structure TradeEnv where
  placeAttempts : Nat → Except PyError String
  getOrder : String → Option OrderRecord

/-- The outcome of a `buy` / `sell` call: the returned value (`.error` when an
exception propagates, `.ok none` for Python `None`), the final worker state,
and how many invocations of the remote order-submission call were made. -/
structure TradeResult where
  ret : Except PyError (Option OrderRecord)
  st : WorkerState
  remoteInvocations : Nat

/-- Method `calculate_order_data` (`base.py` 698-704): overwrite the record's quote
leg with `amount` of the market's quote asset, its price with `price`, and
its base leg with `amount * price` of the market's base asset. -/
def calculate_order_data (m : PyMarket) (o : OrderRecord) (amount price : ℚ) : OrderRecord :=
  { o with quote_amount := amount, quote_symbol := m.quote.symbol,
           price := price,
           base_amount := amount * price, base_symbol := m.base.symbol }

/-- Modelled from the spec: `Order.invert` from the external bitshares price
library (spec §3 data model and §4.5 step 5, "for a sell order, invert the
synthesized base/quote assignment"): swap the base and quote legs and invert
the price. -/
def invert (o : OrderRecord) : OrderRecord :=
  { o with base_amount := o.quote_amount, base_symbol := o.quote_symbol,
           quote_amount := o.base_amount, quote_symbol := o.base_symbol,
           price := 1 / o.price }

/-- Method `buy` (`base.py` 583-638), embedded over the free balance of the market's
base asset and the remote environment. -/
def buy (m : PyMarket) (balance_base : ℚ) (st : WorkerState) (env : TradeEnv)
    (amount price : ℚ) : TradeResult :=
  let base_amount := truncate (price * amount) m.base.precision
  if base_amount = 0 then
    { ret := .ok none, st := { st with disabled := true }, remoteInvocations := 0 }
  else if balance_base < base_amount then
    { ret := .ok none, st := { st with disabled := true }, remoteInvocations := 0 }
  else
    match retry_action env.placeAttempts with
    | (.error e, n) => { ret := .error e, st := st, remoteInvocations := n }
    | (.ok orderid, n) =>
      match env.getOrder orderid with
      | none => { ret := .ok none, st := st, remoteInvocations := n }
      | some o =>
        if o.deleted then
          { ret := .ok (some (calculate_order_data m o amount price)),
            st := { st with recheck_orders := true }, remoteInvocations := n }
        else
          { ret := .ok (some o), st := st, remoteInvocations := n }

/-- Method `sell` (`base.py` 640-696): like `buy` with the quote side consumed and
checked, and with the synthesized instant-fill record additionally passed
through `Order.invert` (`base.py` 693). -/
def sell (m : PyMarket) (balance_quote : ℚ) (st : WorkerState) (env : TradeEnv)
    (amount price : ℚ) : TradeResult :=
  let quote_amount := truncate amount m.quote.precision
  if quote_amount = 0 then
    { ret := .ok none, st := { st with disabled := true }, remoteInvocations := 0 }
  else if balance_quote < quote_amount then
    { ret := .ok none, st := { st with disabled := true }, remoteInvocations := 0 }
  else
    match retry_action env.placeAttempts with
    | (.error e, n) => { ret := .error e, st := st, remoteInvocations := n }
    | (.ok orderid, n) =>
      match env.getOrder orderid with
      | none => { ret := .ok none, st := st, remoteInvocations := n }
      | some o =>
        if o.deleted then
          { ret := .ok (some (invert (calculate_order_data m o amount price))),
            st := { st with recheck_orders := true }, remoteInvocations := n }
        else
          { ret := .ok (some o), st := st, remoteInvocations := n }

/-- Method `is_current_market` (`base.py` 706-718). -/
def is_current_market (m : PyMarket) (base_asset_id quote_asset_id : String) : Bool :=
  if quote_asset_id = m.quote.aid then
    if base_asset_id = m.base.aid then true else false
  else if quote_asset_id = m.base.aid then
    if base_asset_id = m.quote.aid then true else false
  else false

/-- One element of the lists handled by `sort_orders`: only the `price` key is
inspected by the sort; `tag` stands for the rest of the order dict (and makes
stability observable). -/
structure SOrder where
  tag : String
  price : ℚ
deriving DecidableEq

/-- Modelled from the Python builtin `sorted(orders, key, reverse)` used by
`sort_orders` (`base.py` 409): a stable sort by the key; with `reverse=True`
it is the stable sort by the reversed comparison (ties keep their input order
in both modes).  Embedded with the stable `List.mergeSort`. -/
def pySortedByPrice (orders : List SOrder) (rev : Bool) : List SOrder :=
  if rev then orders.mergeSort (fun a b => decide (b.price ≤ a.price))
  else orders.mergeSort (fun a b => decide (a.price ≤ b.price))

/-- Method `sort_orders` (`base.py` 394-409). -/
def sort_orders (orders : List SOrder) (sort : String) : Option (List SOrder) :=
  if strUpper sort = "ASC" then some (pySortedByPrice orders false)
  else if strUpper sort = "DESC" then some (pySortedByPrice orders true)
  else none

/-- One leg of a raw `sell_price` record. -/
structure AssetAmount where
  asset_id : String
  amount : ℚ
deriving DecidableEq

/-- The raw `sell_price` of an item of `Account['limit_orders']`: the
originally posted base-for-quote ratio. -/
structure SellPrice where
  base : AssetAmount
  quote : AssetAmount
deriving DecidableEq

/-- An item of `Account['limit_orders']`: the original posted `sell_price`
ratio and the current remaining base-side size `for_sale`. -/
structure LimitOrder where
  oid : String
  sell_price : SellPrice
  for_sale : ℚ
deriving DecidableEq

/-- Python division: raises `ZeroDivisionError` on a zero denominator. -/
def qdiv (a b : ℚ) : Except PyError ℚ :=
  if b = 0 then .error .zeroDivision else .ok (a / b)

/-- Method `get_updated_limit_order` (`base.py` 473-487): work on a deep copy `o` of
the argument, recompute `price` from the posted ratio, overwrite the copy's
`sell_price` amounts with `for_sale` and `for_sale / price`, return the copy. -/
def get_updated_limit_order (limit_order : LimitOrder) : Except PyError LimitOrder :=
  let o := limit_order
  match qdiv o.sell_price.base.amount o.sell_price.quote.amount with
  | .error e => .error e
  | .ok price =>
    let base_amount := o.for_sale
    match qdiv base_amount price with
    | .error e => .error e
    | .ok quote_amount =>
      .ok { o with sell_price :=
        { base := { o.sell_price.base with amount := base_amount },
          quote := { o.sell_price.quote with amount := quote_amount } } }

/-- Store-level view of `get_updated_limit_order` for the frame claim: the
caller's `account['limit_orders']` list is the store, and the argument is the
record at index `i`.  The source first takes `o = copy.deepcopy(limit_order)`
(`base.py` 481) and assigns only into `o`, so no write targets the store and
the call returns the store unchanged next to its result (an in-place variant
would instead return the store with index `i` overwritten). -/
def get_updated_limit_order_on (store : List LimitOrder) (i : Nat) :
    Except PyError LimitOrder × List LimitOrder :=
  match store[i]? with
  | none => (.error (.other "IndexError"), store)
  | some lo => (get_updated_limit_order lo, store)

/-- What `get_allocated_assets` reads from each looked-up updated order: the
asset id and amount of its base leg (`base.py` 834-838). -/
structure AllocOrder where
  base_asset_id : String
  base_amount : ℚ
deriving DecidableEq

/-- Body of the `for order_id in order_ids` loop of `get_allocated_assets`
(`base.py` 830-838), folding the `(quote, base)` accumulator pair. -/
def alloc_step (lookup : String → Option AllocOrder) (quote_asset base_asset : String)
    (acc : ℚ × ℚ) (order_id : String) : ℚ × ℚ :=
  match lookup order_id with
  | none => acc
  | some o =>
    if o.base_asset_id = quote_asset then (acc.1 + o.base_amount, acc.2)
    else if o.base_asset_id = base_asset then (acc.1, acc.2 + o.base_amount)
    else acc

/-- Method `get_allocated_assets` (`base.py` 812-844) with an empty-normalised id
list (`if not order_ids: order_ids = []`); `lookup` is `self.get_updated_order`
(which yields none for an order that no longer exists, `base.py` 429-449).
Returns the `{quote, base}` sums as a pair. -/
def get_allocated_assets (order_ids : List String) (lookup : String → Option AllocOrder)
    (quote_asset base_asset : String) : ℚ × ℚ :=
  order_ids.foldl (alloc_step lookup quote_asset base_asset) (0, 0)

/-- A concrete market (USD base, BTS quote) used by concrete instances. -/
def demoMarket : PyMarket :=
  { base := { symbol := "USD", precision := 4, aid := "1.3.121" },
    quote := { symbol := "BTS", precision := 5, aid := "1.3.0" } }

/-- A remote environment whose submission succeeds and whose follow-up lookup
finds nothing. -/
def demoEnv : TradeEnv :=
  { placeAttempts := fun _ => Except.ok "1.7.99", getOrder := fun _ => none }

/-- A ledger record reported as already deleted (instant fill). -/
def demoDeletedOrder : OrderRecord :=
  { base_amount := 0, base_symbol := "", quote_amount := 0, quote_symbol := "",
    price := 0, deleted := true }

/-- A remote environment whose submission succeeds and whose follow-up lookup
reports the order deleted. -/
def demoFillEnv : TradeEnv :=
  { placeAttempts := fun _ => Except.ok "1.7.99",
    getOrder := fun _ => some demoDeletedOrder }

/-- A concrete order list with a price tie, for the sort instances. -/
def demoOrders : List SOrder :=
  [{ tag := "a", price := 2 }, { tag := "b", price := 1 }, { tag := "c", price := 1 }]

/-- A concrete open limit order (posted ratio 3 base for 2 quote, 5 base-side
units still for sale). -/
def demoLimitOrder : LimitOrder :=
  { oid := "1.7.5",
    sell_price := { base := { asset_id := "1.3.121", amount := 3 },
                    quote := { asset_id := "1.3.0", amount := 2 } },
    for_sale := 5 }

/-- A raw record with zero posted base amount (and non-zero quote amount). -/
def cexOrderA : LimitOrder :=
  { oid := "1.7.10",
    sell_price := { base := { asset_id := "1.3.121", amount := 0 },
                    quote := { asset_id := "1.3.0", amount := 1 } },
    for_sale := 5 }

/-- A raw record with nothing left for sale (posted ratio 2 for 1). -/
def cexOrderB : LimitOrder :=
  { oid := "1.7.11",
    sell_price := { base := { asset_id := "1.3.121", amount := 2 },
                    quote := { asset_id := "1.3.0", amount := 1 } },
    for_sale := 0 }

/-- The record `get_updated_limit_order` produces from `cexOrderB`: both
amounts end up zero. -/
def cexOrderBResult : LimitOrder :=
  { oid := "1.7.11",
    sell_price := { base := { asset_id := "1.3.121", amount := 0 },
                    quote := { asset_id := "1.3.0", amount := 0 } },
    for_sale := 0 }

end DexBot

namespace DexBot.SupportPrice

/-- Method `Strategy.error` (`support_price.py` 124-126): the handler installed for
`error_ontick`, `error_onMarketUpdate` and `error_onAccount`
(`support_price.py` 50-52); its body assigns `self.disabled = False`. -/
def error (st : WorkerState) : WorkerState :=
  { st with disabled := false }

end DexBot.SupportPrice

namespace DexBot

/-- The message of the first transient signature is classified retryable. -/
theorem retryable_sigExpiration : retryable (PyError.unhandledRPC sigExpiration) = true := by
  decide

/-- The message of the second transient signature is classified retryable. -/
theorem retryable_sigAmountToSell : retryable (PyError.unhandledRPC sigAmountToSell) = true := by
  decide

/-- Unfolding lemma: a successful invocation ends the retry loop. -/
theorem retryGo_ok {α : Type} {action : Nat → Except PyError α} {tries k : Nat} {v : α}
    (h : action k = Except.ok v) : retryGo action tries k = (Except.ok v, k + 1) := by
  rw [retryGo, h]

/-- Unfolding lemma: a non-retryable error ends the retry loop at once. -/
theorem retryGo_fatal {α : Type} {action : Nat → Except PyError α} {tries k : Nat} {e : PyError}
    (h : action k = Except.error e) (hret : retryable e = false) :
    retryGo action tries k = (Except.error e, k + 1) := by
  rw [retryGo, h]
  simp [hret]

/-- Unfolding lemma: a retryable error within the cap loops again. -/
theorem retryGo_retry {α : Type} {action : Nat → Except PyError α} {tries k : Nat} {e : PyError}
    (h : action k = Except.error e) (hret : retryable e = true) (hcap : ¬ tries > MAX_TRIES) :
    retryGo action tries k = retryGo action (tries + 1) (k + 1) := by
  rw [retryGo, h]
  simp [hret, hcap]

/-- Unfolding lemma: a retryable error beyond the cap re-raises. -/
theorem retryGo_giveup {α : Type} {action : Nat → Except PyError α} {tries k : Nat} {e : PyError}
    (h : action k = Except.error e) (hret : retryable e = true) (hcap : tries > MAX_TRIES) :
    retryGo action tries k = (Except.error e, k + 1) := by
  rw [retryGo, h]
  simp [hret, hcap]

/-- Claim C1 (amended): for every action that on each invocation raises an
error containing one of the two transient signatures, `retry_action` re-raises
the original error after exactly 4 retries, i.e. 5 (`MAX_TRIES + 2`) total
invocations of the action; an action that fails fewer than that many times
before succeeding has its success value returned. -/
theorem retry_action_bound {α : Type} (action : Nat → Except PyError α)
    (e : PyError) (v : α) (n : Nat) (hret : retryable e = true) :
    ((∀ k, action k = Except.error e) →
        retry_action action = (Except.error e, MAX_TRIES + 2)) ∧
    (n ≤ MAX_TRIES + 1 → (∀ k, k < n → action k = Except.error e) →
        action n = Except.ok v →
        retry_action action = (Except.ok v, n + 1)) := by
  constructor
  · intro hfail
    show retryGo action 0 0 = _
    rw [retryGo_retry (hfail 0) hret (by simp [MAX_TRIES]),
        retryGo_retry (hfail 1) hret (by simp [MAX_TRIES]),
        retryGo_retry (hfail 2) hret (by simp [MAX_TRIES]),
        retryGo_retry (hfail 3) hret (by simp [MAX_TRIES]),
        retryGo_giveup (hfail 4) hret (by simp [MAX_TRIES])]
    rfl
  · intro hn hpre hsucc
    show retryGo action 0 0 = _
    have hn4 : n ≤ 4 := by simpa [MAX_TRIES] using hn
    interval_cases n
    · rw [retryGo_ok hsucc]
    · rw [retryGo_retry (hpre 0 (by omega)) hret (by simp [MAX_TRIES]), retryGo_ok hsucc]
    · rw [retryGo_retry (hpre 0 (by omega)) hret (by simp [MAX_TRIES]),
          retryGo_retry (hpre 1 (by omega)) hret (by simp [MAX_TRIES]),
          retryGo_ok hsucc]
    · rw [retryGo_retry (hpre 0 (by omega)) hret (by simp [MAX_TRIES]),
          retryGo_retry (hpre 1 (by omega)) hret (by simp [MAX_TRIES]),
          retryGo_retry (hpre 2 (by omega)) hret (by simp [MAX_TRIES]),
          retryGo_ok hsucc]
    · rw [retryGo_retry (hpre 0 (by omega)) hret (by simp [MAX_TRIES]),
          retryGo_retry (hpre 1 (by omega)) hret (by simp [MAX_TRIES]),
          retryGo_retry (hpre 2 (by omega)) hret (by simp [MAX_TRIES]),
          retryGo_retry (hpre 3 (by omega)) hret (by simp [MAX_TRIES]),
          retryGo_ok hsucc]

/-- Witness for C1: an always-failing action is invoked 5 times and the error
re-raised; an action failing twice then succeeding returns the value after 3
invocations. -/
theorem retry_action_bound_witness :
    retry_action (fun _ => (Except.error (PyError.unhandledRPC sigAmountToSell) : Except PyError Nat))
        = (Except.error (PyError.unhandledRPC sigAmountToSell), MAX_TRIES + 2) ∧
    retry_action (fun k => if k < 2 then Except.error (PyError.unhandledRPC sigExpiration)
        else (Except.ok 7 : Except PyError Nat))
        = (Except.ok 7, 2 + 1) :=
  ⟨(retry_action_bound _ (PyError.unhandledRPC sigAmountToSell) 7 0 (by decide)).1
      (fun _ => rfl),
   (retry_action_bound _ (PyError.unhandledRPC sigExpiration) 7 2 (by decide)).2
      (by decide) (fun k hk => by simp [hk]) (by simp)⟩

/-- The "Unable to find Object" error is not one of the transient signatures. -/
theorem not_retryable_notFound :
    retryable (PyError.unhandledRPC (sigNotFound ++ " 1.7.1")) = false := by
  decide

/-- Batched cancel failing with the "Unable to find Object" error makes
`_cancel_orders` return `False`. -/
theorem cancel_helper_notFound :
    _cancel_orders (fun _ => Except.error (PyError.unhandledRPC (sigNotFound ++ " 1.7.1")))
      = Except.ok false := by
  have hsw : strStartsWith (sigNotFound ++ " 1.7.1") sigNotFound = true := by decide
  simp only [_cancel_orders, retry_action]
  rw [retryGo_fatal rfl not_retryable_notFound]
  simp [hsw]

/-- Batched cancel failing with an unrelated remote error makes
`_cancel_orders` return `True` (after logging). -/
theorem cancel_helper_other :
    _cancel_orders (fun _ => Except.error (PyError.unhandledRPC "Assert Exception: insufficient balance"))
      = Except.ok true := by
  have hsw : strStartsWith "Assert Exception: insufficient balance" sigNotFound = false := by decide
  simp only [_cancel_orders, retry_action]
  rw [retryGo_fatal rfl (by decide)]
  simp [hsw]

/-- A successful cancel call makes `_cancel_orders` return `True`. -/
theorem cancel_helper_ok :
    _cancel_orders (fun _ => (Except.ok () : Except PyError Unit)) = Except.ok true := by
  simp only [_cancel_orders, retry_action]
  rw [@retryGo_ok Unit (fun _ => (Except.ok () : Except PyError Unit)) 0 0 () rfl]

/-- Claim C2 (code bug, evaluating the code at the failing input): with three
orders requested, a batched cancel failing with the "Unable to find Object"
error triggers the per-order fallback (3 individual cancel calls), while a
batched cancel failing for an unrelated reason triggers no fallback — each
the opposite of what the spec (and the code's own comments) state. -/
theorem cancel_orders_inverted_fallback :
    cancel_orders [{ oid := some "1.7.1" }, { oid := some "1.7.2" }, { oid := some "1.7.3" }]
        (fun _ => Except.error (PyError.unhandledRPC (sigNotFound ++ " 1.7.1")))
        (fun _ _ => Except.ok ()) = Except.ok 3 ∧
    cancel_orders [{ oid := some "1.7.1" }, { oid := some "1.7.2" }, { oid := some "1.7.3" }]
        (fun _ => Except.error (PyError.unhandledRPC "Assert Exception: insufficient balance"))
        (fun _ _ => Except.ok ()) = Except.ok 0 := by
  constructor
  · simp only [cancel_orders]
    rw [cancel_helper_notFound]
    simp [cancel_helper_ok, List.foldlM]
    rfl
  · simp only [cancel_orders]
    rw [cancel_helper_other]
    simp

/-- Counterexample to C1 as stated: an action that always raises a
transient-signature error is invoked 5 times in total (4 retries), not 4
(3 retries). -/
theorem retry_action_claim_counterexample :
    (retry_action (fun _ => (Except.error (PyError.unhandledRPC sigAmountToSell) : Except PyError Nat))).2 = 5 ∧
    (retry_action (fun _ => (Except.error (PyError.unhandledRPC sigAmountToSell) : Except PyError Nat))).2 ≠ 4 := by
  have h : retry_action (fun _ => (Except.error (PyError.unhandledRPC sigAmountToSell) : Except PyError Nat))
      = (Except.error (PyError.unhandledRPC sigAmountToSell), 5) := by
    show retryGo _ 0 0 = _
    rw [retryGo_retry rfl retryable_sigAmountToSell (by simp [MAX_TRIES]),
        retryGo_retry rfl retryable_sigAmountToSell (by simp [MAX_TRIES]),
        retryGo_retry rfl retryable_sigAmountToSell (by simp [MAX_TRIES]),
        retryGo_retry rfl retryable_sigAmountToSell (by simp [MAX_TRIES]),
        retryGo_giveup rfl retryable_sigAmountToSell (by simp [MAX_TRIES])]
  rw [h]
  simp

end DexBot

namespace DexBot

/-- Claim C3: whenever the truncated base amount is zero or the free base
balance is below it, `buy` sets the fault flag, returns no order, performs no
remote submission call (hence nothing is retried) and raises no exception. -/
theorem buy_guard_faults (m : PyMarket) (balance_base : ℚ) (st : WorkerState)
    (env : TradeEnv) (amount price : ℚ)
    (h : truncate (price * amount) m.base.precision = 0 ∨
         balance_base < truncate (price * amount) m.base.precision) :
    buy m balance_base st env amount price =
      { ret := Except.ok none, st := { st with disabled := true },
        remoteInvocations := 0 } := by
  unfold buy
  rcases h with h | h
  · simp [h]
  · rcases eq_or_ne (truncate (price * amount) m.base.precision) 0 with h0 | h0
    · simp [h0]
    · simp [h0, h]

/-- Witness for C3: with zero free base balance, a buy of 10 at price 1 needs
10 base units, places no order, makes no remote call and trips the flag. -/
theorem buy_guard_faults_witness :
    buy demoMarket 0 { disabled := false, recheck_orders := false } demoEnv 10 1 =
      { ret := Except.ok none,
        st := { disabled := true, recheck_orders := false },
        remoteInvocations := 0 } :=
  buy_guard_faults demoMarket 0 { disabled := false, recheck_orders := false } demoEnv 10 1
    (Or.inr (by norm_num [truncate, demoMarket]))

/-- Claim C4 (code bug, evaluating the code at the failing input): the error
handler the support-price strategy installs for every `error_*` event sets the
fault flag back to `False`, so a disabled worker is re-enabled by the engine
itself rather than only by an external reset. -/
theorem error_clears_fault_flag :
    (SupportPrice.error { disabled := true, recheck_orders := false }).disabled = false :=
  rfl

end DexBot

namespace DexBot

/-- The ascending price comparison is transitive. -/
theorem leAsc_trans : ∀ a b c : SOrder, decide (a.price ≤ b.price) = true →
    decide (b.price ≤ c.price) = true → decide (a.price ≤ c.price) = true := by
  intro a b c hab hbc
  simp only [decide_eq_true_eq] at *
  exact le_trans hab hbc

/-- The ascending price comparison is total. -/
theorem leAsc_total : ∀ a b : SOrder,
    (decide (a.price ≤ b.price) || decide (b.price ≤ a.price)) = true := by
  intro a b
  rcases le_total a.price b.price with h | h <;> simp [h]

/-- The descending price comparison is transitive. -/
theorem leDesc_trans : ∀ a b c : SOrder, decide (b.price ≤ a.price) = true →
    decide (c.price ≤ b.price) = true → decide (c.price ≤ a.price) = true := by
  intro a b c hab hbc
  simp only [decide_eq_true_eq] at *
  exact le_trans hbc hab

/-- The descending price comparison is total. -/
theorem leDesc_total : ∀ a b : SOrder,
    (decide (b.price ≤ a.price) || decide (a.price ≤ b.price)) = true := by
  intro a b
  rcases le_total a.price b.price with h | h <;> simp [h]

/-- Stability of the embedded sort, phrased through filters: any class of
orders agreeing under the comparison comes out in its input order. -/
theorem mergeSort_filter_stable (l : List SOrder) (le : SOrder → SOrder → Bool)
    (htrans : ∀ a b c : SOrder, le a b = true → le b c = true → le a c = true)
    (htotal : ∀ a b : SOrder, (le a b || le b a) = true)
    (p : SOrder → Bool)
    (hp : ∀ a b : SOrder, p a = true → p b = true → le a b = true) :
    (l.mergeSort le).filter p = l.filter p := by
  have hpair : (l.filter p).Pairwise (fun a b => le a b = true) :=
    List.pairwise_of_forall_mem_list (fun a ha b hb =>
      hp a b (List.of_mem_filter ha) (List.of_mem_filter hb))
  have h1 : List.Sublist (l.filter p) (l.mergeSort le) :=
    List.sublist_mergeSort htrans htotal hpair (List.filter_sublist l)
  have hff : (l.filter p).filter p = l.filter p := by
    simp [List.filter_filter]
  have h2 : List.Sublist (l.filter p) ((l.mergeSort le).filter p) := by
    have h3 := h1.filter p
    rwa [hff] at h3
  have hlen : ((l.mergeSort le).filter p).length = (l.filter p).length :=
    ((List.mergeSort_perm l le).filter p).length_eq
  exact (h2.eq_of_length hlen.symm).symm

/-- Claim C5: `sort_orders` with direction ASC returns the list sorted by
non-decreasing price, with DESC sorted by non-increasing price — stably in
both cases (each equal-price class keeps its input order) — and with any
unrecognized direction string returns no result. -/
theorem sort_orders_spec (orders : List SOrder) (d : String) :
    (strUpper d = "ASC" → ∃ l, sort_orders orders d = some l ∧
        l.Pairwise (fun a b => a.price ≤ b.price) ∧
        ∀ q : ℚ, l.filter (fun o => decide (o.price = q))
            = orders.filter (fun o => decide (o.price = q))) ∧
    (strUpper d = "DESC" → ∃ l, sort_orders orders d = some l ∧
        l.Pairwise (fun a b => b.price ≤ a.price) ∧
        ∀ q : ℚ, l.filter (fun o => decide (o.price = q))
            = orders.filter (fun o => decide (o.price = q))) ∧
    (strUpper d ≠ "ASC" → strUpper d ≠ "DESC" → sort_orders orders d = none) := by
  refine ⟨fun h => ?_, fun h => ?_, fun h1 h2 => ?_⟩
  · refine ⟨orders.mergeSort (fun a b => decide (a.price ≤ b.price)),
      by simp [sort_orders, pySortedByPrice, h], ?_, ?_⟩
    · have hs := List.sorted_mergeSort leAsc_trans leAsc_total orders
      exact hs.imp (fun hab => of_decide_eq_true hab)
    · intro q
      exact mergeSort_filter_stable orders _ leAsc_trans leAsc_total _
        (fun a b ha hb => by
          simp only [decide_eq_true_eq] at *
          rw [ha, hb])
  · refine ⟨orders.mergeSort (fun a b => decide (b.price ≤ a.price)),
      by simp [sort_orders, pySortedByPrice, h], ?_, ?_⟩
    · have hs := List.sorted_mergeSort leDesc_trans leDesc_total orders
      exact hs.imp (fun hab => of_decide_eq_true hab)
    · intro q
      exact mergeSort_filter_stable orders _ leDesc_trans leDesc_total _
        (fun a b ha hb => by
          simp only [decide_eq_true_eq] at *
          rw [ha, hb])
  · simp [sort_orders, h1, h2]

/-- Witness for C5 at a concrete list with a price tie: direction "asc" gives
a sorted result with ties kept in input order; direction "other" gives none. -/
theorem sort_orders_spec_witness :
    (∃ l, sort_orders demoOrders "asc" = some l ∧
        l.Pairwise (fun a b : SOrder => a.price ≤ b.price) ∧
        ∀ q : ℚ, l.filter (fun o => decide (o.price = q))
            = demoOrders.filter (fun o => decide (o.price = q))) ∧
    sort_orders demoOrders "other" = none :=
  ⟨(sort_orders_spec demoOrders "asc").1 (by decide),
   (sort_orders_spec demoOrders "other").2.2 (by decide) (by decide)⟩

end DexBot

namespace DexBot

/-- Claim C6 (amended): for every raw limit-order record with non-zero
sell_price base and quote amounts, `get_updated_limit_order` returns a record
whose base amount equals the record's current remaining size `for_sale` and
whose quote amount equals `for_sale` divided by the original price
(base amount / quote amount); when `for_sale` is also non-zero, the returned
record's price (its base amount divided by its quote amount) equals that
original price. -/
theorem get_updated_limit_order_spec (o : LimitOrder)
    (hb : o.sell_price.base.amount ≠ 0) (hq : o.sell_price.quote.amount ≠ 0) :
    ∃ r, get_updated_limit_order o = Except.ok r ∧
      r.sell_price.base.amount = o.for_sale ∧
      r.sell_price.quote.amount
          = o.for_sale / (o.sell_price.base.amount / o.sell_price.quote.amount) ∧
      (o.for_sale ≠ 0 →
        r.sell_price.base.amount / r.sell_price.quote.amount
            = o.sell_price.base.amount / o.sell_price.quote.amount) := by
  have hp : o.sell_price.base.amount / o.sell_price.quote.amount ≠ 0 :=
    div_ne_zero hb hq
  refine ⟨{ o with sell_price :=
      { base := { o.sell_price.base with amount := o.for_sale },
        quote := { o.sell_price.quote with
          amount := o.for_sale / (o.sell_price.base.amount / o.sell_price.quote.amount) } } },
    ?_, rfl, rfl, ?_⟩
  · simp [get_updated_limit_order, qdiv, hq, hp]
  · intro hf
    rw [div_div_eq_mul_div, mul_comm, mul_div_assoc, div_self hf, mul_one]

/-- Witness for C6 at a concrete partially filled order: posted ratio 3/2
(price 1.5), remaining `for_sale` 5. -/
theorem get_updated_limit_order_spec_witness :
    ∃ r, get_updated_limit_order demoLimitOrder = Except.ok r ∧
      r.sell_price.base.amount = demoLimitOrder.for_sale ∧
      r.sell_price.quote.amount
          = demoLimitOrder.for_sale
              / (demoLimitOrder.sell_price.base.amount / demoLimitOrder.sell_price.quote.amount) ∧
      (demoLimitOrder.for_sale ≠ 0 →
        r.sell_price.base.amount / r.sell_price.quote.amount
            = demoLimitOrder.sell_price.base.amount / demoLimitOrder.sell_price.quote.amount) :=
  get_updated_limit_order_spec demoLimitOrder (by decide) (by decide)

/-- Counterexample to C6 as stated: with a zero posted base amount (quote
amount 1, so the claim's hypothesis holds) the recomputation raises
`ZeroDivisionError` instead of returning a record; and with `for_sale = 0`
(posted ratio 2/1) the returned record has both amounts zero, so its price is
not the original price 2. -/
theorem get_updated_limit_order_counterexample :
    (cexOrderA.sell_price.quote.amount ≠ 0 ∧
      get_updated_limit_order cexOrderA = Except.error PyError.zeroDivision) ∧
    (cexOrderB.sell_price.quote.amount ≠ 0 ∧
      get_updated_limit_order cexOrderB = Except.ok cexOrderBResult ∧
      cexOrderBResult.sell_price.base.amount / cexOrderBResult.sell_price.quote.amount
        ≠ cexOrderB.sell_price.base.amount / cexOrderB.sell_price.quote.amount) := by
  refine ⟨⟨by decide, ?_⟩, ⟨by decide, ?_, by norm_num [cexOrderB, cexOrderBResult]⟩⟩
  · norm_num [get_updated_limit_order, qdiv, cexOrderA]
  · norm_num [get_updated_limit_order, qdiv, cexOrderB, cexOrderBResult]

end DexBot

namespace DexBot

/-- Claim C7: when a sell placement succeeds but the immediate lookup reports
the order deleted (instant fill), the synthesized record produced by
`calculate_order_data` carries quote amount `amount` in the market's quote
asset and base amount `amount * price` in the market's base asset, and the
sell path returns that record with the base/quote assignment inverted. -/
theorem sell_instant_fill_inverts (m : PyMarket) (balance_quote : ℚ) (st : WorkerState)
    (env : TradeEnv) (amount price : ℚ) (oid : String) (o : OrderRecord) (n : Nat)
    (h0 : truncate amount m.quote.precision ≠ 0)
    (hbal : ¬ balance_quote < truncate amount m.quote.precision)
    (hplace : retry_action env.placeAttempts = (Except.ok oid, n))
    (hget : env.getOrder oid = some o)
    (hdel : o.deleted = true) :
    sell m balance_quote st env amount price =
      { ret := Except.ok (some (invert (calculate_order_data m o amount price))),
        st := { st with recheck_orders := true }, remoteInvocations := n } ∧
    (calculate_order_data m o amount price).quote_amount = amount ∧
    (calculate_order_data m o amount price).quote_symbol = m.quote.symbol ∧
    (calculate_order_data m o amount price).base_amount = amount * price ∧
    (calculate_order_data m o amount price).base_symbol = m.base.symbol ∧
    (invert (calculate_order_data m o amount price)).quote_amount = amount * price ∧
    (invert (calculate_order_data m o amount price)).base_amount = amount := by
  refine ⟨?_, rfl, rfl, rfl, rfl, rfl, rfl⟩
  unfold sell
  simp [h0, hbal, hplace, hget, hdel]

/-- Witness for C7, matching the claim's example: a sell of amount 5 at price
2 with an instant fill synthesizes base 10 / quote 5 before inversion, and the
returned sell order reports quote 10 / base 5. -/
theorem sell_instant_fill_witness :
    sell demoMarket 100 { disabled := false, recheck_orders := false } demoFillEnv 5 2 =
      { ret := Except.ok (some (invert (calculate_order_data demoMarket demoDeletedOrder 5 2))),
        st := { disabled := false, recheck_orders := true }, remoteInvocations := 1 } ∧
    (calculate_order_data demoMarket demoDeletedOrder 5 2).base_amount = 10 ∧
    (calculate_order_data demoMarket demoDeletedOrder 5 2).quote_amount = 5 ∧
    (invert (calculate_order_data demoMarket demoDeletedOrder 5 2)).quote_amount = 10 ∧
    (invert (calculate_order_data demoMarket demoDeletedOrder 5 2)).base_amount = 5 :=
  ⟨(sell_instant_fill_inverts demoMarket 100 { disabled := false, recheck_orders := false }
        demoFillEnv 5 2 "1.7.99" demoDeletedOrder 1
        (by norm_num [truncate, demoMarket])
        (by norm_num [truncate, demoMarket])
        (@retryGo_ok String demoFillEnv.placeAttempts 0 0 "1.7.99" rfl)
        rfl rfl).1,
   by norm_num [calculate_order_data],
   by norm_num [calculate_order_data],
   by norm_num [calculate_order_data, invert],
   by norm_num [calculate_order_data, invert]⟩

/-- Folding the allocation step over only the ids whose lookup succeeds
changes nothing: missing orders contribute nothing. -/
theorem alloc_foldl_filter (lookup : String → Option AllocOrder) (qa ba : String) :
    ∀ (ids : List String) (acc : ℚ × ℚ),
      ids.foldl (alloc_step lookup qa ba) acc
        = (ids.filter (fun i => (lookup i).isSome)).foldl (alloc_step lookup qa ba) acc := by
  intro ids
  induction ids with
  | nil => intro acc; rfl
  | cons i t ih =>
    intro acc
    by_cases h : (lookup i).isSome
    · simp only [List.foldl_cons, List.filter_cons, h]
      exact ih _
    · have hn : lookup i = none := Option.not_isSome_iff_eq_none.mp h
      have hstep : alloc_step lookup qa ba acc i = acc := by
        unfold alloc_step
        rw [hn]
      simp only [List.foldl_cons, List.filter_cons, hn, Option.isSome_none, hstep]
      exact ih _

/-- Claim C8: `get_allocated_assets` on an empty (or absent, normalised to
empty) id list returns zero quote and zero base without any per-order lookup,
and ids whose order no longer exists contribute nothing to the sums. -/
theorem get_allocated_assets_spec (lookup : String → Option AllocOrder) (qa ba : String) :
    get_allocated_assets [] lookup qa ba = (0, 0) ∧
    (∀ ids, get_allocated_assets ids lookup qa ba
        = get_allocated_assets (ids.filter (fun i => (lookup i).isSome)) lookup qa ba) := by
  exact ⟨rfl, fun ids => alloc_foldl_filter lookup qa ba ids (0, 0)⟩

/-- Claim C9: the store-level `get_updated_limit_order` leaves the caller's
`account['limit_orders']` store unchanged — the source deep-copies the record
and mutates only the copy. -/
theorem get_updated_limit_order_frame (store : List LimitOrder) (i : Nat) :
    (get_updated_limit_order_on store i).2 = store := by
  unfold get_updated_limit_order_on
  cases store[i]? <;> rfl

/-- Claim C10: `is_current_market` returns true exactly when the pair of asset
ids equals the market's configured (base, quote) ids or equals them swapped,
and false for every other pair. -/
theorem is_current_market_iff (m : PyMarket) (b q : String) :
    is_current_market m b q = true ↔
      ((b = m.base.aid ∧ q = m.quote.aid) ∨ (b = m.quote.aid ∧ q = m.base.aid)) := by
  unfold is_current_market
  split_ifs with h1 h2 h3 h4
  · simp [h1, h2]
  · simp only [Bool.false_eq_true, false_iff]
    rintro (⟨hb, -⟩ | ⟨hb, hq⟩)
    · exact h2 hb
    · exact h2 (hb.trans (h1.symm.trans hq))
  · simp [h3, h4]
  · simp only [Bool.false_eq_true, false_iff]
    rintro (⟨-, hq⟩ | ⟨hb, -⟩)
    · exact h1 hq
    · exact h4 hb
  · simp only [Bool.false_eq_true, false_iff]
    rintro (⟨-, hq⟩ | ⟨-, hq⟩)
    · exact h1 hq
    · exact h3 hq

end DexBot
